import Mathlib

/-!
# SIP calculator: the projection engine of `src/SIPCalculator.jsx`

A shallow embedding of `calculateSIP` and of the chart series derived from it,
under two readings of its arithmetic.

* In exact arithmetic (`calculateSIP`): finite numbers are rationals, nothing is
  rounded, and the non-finite results of `Math.pow` and `/` (a zero base under a
  negative exponent, a zero divisor) are kept as explicit values. The closed
  forms of the outputs are statements about this reading.
* In binary64 (`calculateSIP64`): every operation rounds to the nearest double,
  overflows and underflows as the program does. The values the program returns
  at a given input are computed in this reading.

The form state, whose fields hold numbers or strings, is modelled apart.
-/

namespace SIPCalculator

/-! ## Numbers -/

/-- A JavaScript number in exact arithmetic: a finite rational, one of the two
infinities, or NaN. Zero is unsigned; the only zeros that reach a divisor or a
power base in `calculateSIP` are `1 + x / 100` at `x = -100`, which is `+0`. -/
inductive JSNum where
  | fin (q : ℚ)
  | posInf
  | negInf
  | nan
  deriving DecidableEq

namespace JSNum

/-- The unary minus. -/
def neg : JSNum → JSNum
  | fin q => fin (-q)
  | posInf => negInf
  | negInf => posInf
  | nan => nan

/-- The binary `+` on numbers. -/
def add : JSNum → JSNum → JSNum
  | nan, _ => nan
  | _, nan => nan
  | fin a, fin b => fin (a + b)
  | fin _, posInf => posInf
  | fin _, negInf => negInf
  | posInf, fin _ => posInf
  | negInf, fin _ => negInf
  | posInf, posInf => posInf
  | negInf, negInf => negInf
  | posInf, negInf => nan
  | negInf, posInf => nan

/-- The binary `-` on numbers. -/
def sub (a b : JSNum) : JSNum := add a (neg b)

/-- An infinity of the sign of `q`, NaN for `q = 0`: the product of `+∞` and a finite `q`. -/
def infTimes (q : ℚ) : JSNum :=
  if q = 0 then nan else if 0 < q then posInf else negInf

/-- The binary `*` on numbers. -/
def mul : JSNum → JSNum → JSNum
  | nan, _ => nan
  | _, nan => nan
  | fin a, fin b => fin (a * b)
  | fin a, posInf => infTimes a
  | fin a, negInf => infTimes (-a)
  | posInf, fin b => infTimes b
  | negInf, fin b => infTimes (-b)
  | posInf, posInf => posInf
  | negInf, negInf => posInf
  | posInf, negInf => negInf
  | negInf, posInf => negInf

/-- The binary `/` on numbers. A finite zero divisor is `+0`: a non-zero
numerator gives the infinity of its sign, a zero numerator gives NaN. -/
def div : JSNum → JSNum → JSNum
  | nan, _ => nan
  | _, nan => nan
  | fin a, fin b => if b = 0 then infTimes a else fin (a / b)
  | fin _, posInf => fin 0
  | fin _, negInf => fin 0
  | posInf, fin b => if 0 ≤ b then posInf else negInf
  | negInf, fin b => if 0 ≤ b then negInf else posInf
  | posInf, posInf => nan
  | negInf, negInf => nan
  | posInf, negInf => nan
  | negInf, posInf => nan

/-- The call `Math.pow(base, e)` for a finite base and a whole exponent: the
base `+0` under a negative exponent gives `+∞`, and `Math.pow(x, 0)` is 1. -/
def pow (base : ℚ) (e : ℤ) : JSNum :=
  if base = 0 ∧ e < 0 then posInf else fin (base ^ e)

/-- The comparison `a < b` on numbers: false as soon as one side is NaN. -/
def lt : JSNum → JSNum → Bool
  | fin a, fin b => decide (a < b)
  | fin _, posInf => true
  | negInf, fin _ => true
  | negInf, posInf => true
  | _, _ => false

/-- A number that is neither an infinity nor NaN. -/
def isFinite : JSNum → Bool
  | fin _ => true
  | _ => false

end JSNum

/-! ## The data model -/

/-- The six inputs of the calculator, the component state read by `calculateSIP`. -/
structure Inputs where
  sipAmount : ℚ
  annualReturn : ℚ
  years : ℤ
  lumpSum : ℚ
  stepUp : ℚ
  inflationRate : ℚ

/-- The object returned by `calculateSIP`. The two values accumulated by the
loop are built from finite inputs by `+` and `*` only, hence finite. -/
structure Outputs where
  futureValue : ℚ
  lumpSumFuture : JSNum
  adjustedFutureValue : JSNum
  totalInvested : ℚ
  totalInterest : JSNum

/-- The variables of the `for` loop of `calculateSIP`. -/
structure LoopState where
  i : ℕ
  futureValue : ℚ
  sip : ℚ
  totalInvested : ℚ

/-! ## `calculateSIP` -/

/-- One pass through the body of the loop, the increment `i++` included. -/
def loopBody (monthlyRate yearlyIncrement : ℚ) (s : LoopState) : LoopState :=
  let sip := if s.i % 12 = 0 ∧ s.i ≠ 0 then s.sip * yearlyIncrement else s.sip
  { i := s.i + 1
    futureValue := (s.futureValue + sip) * (1 + monthlyRate)
    sip := sip
    totalInvested := s.totalInvested + sip }

/-- The loop `for (...; i < months; i++) { ... }`, entered in state `s`. -/
def forLoop (months : ℤ) (monthlyRate yearlyIncrement : ℚ) (s : LoopState) : LoopState :=
  if (s.i : ℤ) < months then
    forLoop months monthlyRate yearlyIncrement (loopBody monthlyRate yearlyIncrement s)
  else s
termination_by (months - s.i).toNat
decreasing_by
  simp only [loopBody]
  omega

/-- The state in which the loop of `calculateSIP` ends. -/
def finalLoopState (inp : Inputs) : LoopState :=
  let monthlyRate := inp.annualReturn / 100 / 12
  let months := inp.years * 12
  let yearlyIncrement := 1 + inp.stepUp / 100
  forLoop months monthlyRate yearlyIncrement
    { i := 0, futureValue := 0, sip := inp.sipAmount, totalInvested := 0 }

/-- The number of times the loop body of `calculateSIP` runs: each pass
increments `i`, which starts at 0. -/
def loopIterations (inp : Inputs) : ℕ := (finalLoopState inp).i

/-- The function `calculateSIP`. -/
def calculateSIP (inp : Inputs) : Outputs :=
  let s := finalLoopState inp
  let futureValue := s.futureValue
  let totalInvested := s.totalInvested
  let lumpSumFuture :=
    JSNum.mul (JSNum.fin inp.lumpSum) (JSNum.pow (1 + inp.annualReturn / 100) inp.years)
  let adjustedFutureValue :=
    JSNum.div (JSNum.add (JSNum.fin futureValue) lumpSumFuture)
      (JSNum.pow (1 + inp.inflationRate / 100) inp.years)
  let totalInterest :=
    JSNum.sub (JSNum.add (JSNum.fin futureValue) lumpSumFuture)
      (JSNum.add (JSNum.fin totalInvested) (JSNum.fin inp.lumpSum))
  { futureValue := futureValue
    lumpSumFuture := lumpSumFuture
    adjustedFutureValue := adjustedFutureValue
    totalInvested := totalInvested
    totalInterest := totalInterest }

/-! ## The chart series -/

/-- The labels of the line chart: `Array.from({ length: years }, (_, i) => i + 1)`. -/
def chartLabels (inp : Inputs) : List ℕ :=
  List.map (fun i : ℕ => i + 1) (List.range inp.years.toNat)

/-- The data of the 'Investment Growth' series:
`Array.from({ length: years }, (_, i) => calculateSIP().futureValue / (i + 1))`. -/
def chartSeries (inp : Inputs) : List JSNum :=
  List.map
    (fun i : ℕ => JSNum.div (JSNum.fin (calculateSIP inp).futureValue) (JSNum.fin ((i : ℚ) + 1)))
    (List.range inp.years.toNat)

/-- The contribution of month `j`: `sipAmount` stepped up by the factor
`g = 1 + stepUp / 100` once per completed year. -/
def contribution (P g : ℚ) (j : ℕ) : ℚ := P * g ^ (j / 12)

/-! ## The form state and its handlers

The state fields are written by the `onChange` handlers of the six inputs, each
of the form `(e) => setX(e.target.value)`, where `e.target.value` is the text of
the input element. A field therefore holds a number or a string, and the
operators of `calculateSIP` act on such values. Only the exact part of their
behaviour is modelled: a result of `none` stands for a conversion outside it
(printing a number that is not a whole number below `10^21`, reading a string
that is not a plain run of decimal digits). -/

/-- A value held by a state field. -/
inductive JSVal where
  | num (q : ℚ)
  | str (s : String)
  deriving DecidableEq

/-- The value of a run of decimal digits read after the value `acc`. -/
def digitsValue : List Char → ℕ → Option ℕ
  | [], acc => some acc
  | c :: cs, acc =>
    if c.isDigit then digitsValue cs (10 * acc + (c.toNat - '0'.toNat)) else none

namespace JSVal

/-- The conversion to a number applied by `*`, `/` and `-`: a run of digits
reads as a decimal numeral, leading zeros allowed, and the empty string as 0. -/
def toNum : JSVal → Option ℚ
  | num q => some q
  | str s => (digitsValue s.data 0).map fun n => (n : ℚ)

/-- The conversion to a string applied by `+` next to a string operand. -/
def toStr : JSVal → Option String
  | str s => some s
  | num q => if q.den = 1 ∧ q.num.natAbs < 10 ^ 21 then some (toString q.num) else none

/-- The operator `+`: addition of two numbers, concatenation as soon as one
operand is a string. -/
def add : JSVal → JSVal → Option JSVal
  | num x, num y => some (num (x + y))
  | a, b =>
    match a.toStr, b.toStr with
    | some sa, some sb => some (str (sa ++ sb))
    | _, _ => none

/-- The operator `*`, on the numeric values of its operands. -/
def mul (a b : JSVal) : Option JSVal :=
  match a.toNum, b.toNum with
  | some x, some y => some (num (x * y))
  | _, _ => none

/-- The operator `/`, on the numeric values of its operands, for a non-zero divisor. -/
def div (a b : JSVal) : Option JSVal :=
  match a.toNum, b.toNum with
  | some x, some y => if y = 0 then none else some (num (x / y))
  | _, _ => none

/-- The test `typeof v === "number"`. -/
def isNumber : JSVal → Bool
  | num _ => true
  | str _ => false

end JSVal

/-- The six `useState` fields read by `calculateSIP`. -/
structure FormState where
  sipAmount : JSVal
  annualReturn : JSVal
  years : JSVal
  lumpSum : JSVal
  stepUp : JSVal
  inflationRate : JSVal

/-- The initial state: `useState(5000)`, `useState(12)`, `useState(10)`,
`useState(0)`, `useState(0)`, `useState(0)`. -/
def initialState : FormState :=
  { sipAmount := JSVal.num 5000
    annualReturn := JSVal.num 12
    years := JSVal.num 10
    lumpSum := JSVal.num 0
    stepUp := JSVal.num 0
    inflationRate := JSVal.num 0 }

/-- The handler `(e) => setSipAmount(e.target.value)`, `text` being `e.target.value`. -/
def setSipAmount (st : FormState) (text : String) : FormState :=
  { st with sipAmount := JSVal.str text }

/-- The handler `(e) => setAnnualReturn(e.target.value)`. -/
def setAnnualReturn (st : FormState) (text : String) : FormState :=
  { st with annualReturn := JSVal.str text }

/-- The handler `(e) => setYears(e.target.value)`. -/
def setYears (st : FormState) (text : String) : FormState :=
  { st with years := JSVal.str text }

/-- The handler `(e) => setLumpSum(e.target.value)`. -/
def setLumpSum (st : FormState) (text : String) : FormState :=
  { st with lumpSum := JSVal.str text }

/-- The handler `(e) => setStepUp(e.target.value)`. -/
def setStepUp (st : FormState) (text : String) : FormState :=
  { st with stepUp := JSVal.str text }

/-- The handler `(e) => setInflationRate(e.target.value)`. -/
def setInflationRate (st : FormState) (text : String) : FormState :=
  { st with inflationRate := JSVal.str text }

/-- The two statements of the loop body that decide `totalInvested`, on state
values: `if (i % 12 === 0 && i !== 0) sip *= yearlyIncrement` and
`totalInvested += sip`. The result is the new `sip` and `totalInvested`. -/
def investedBody (yearlyIncrement : JSVal) (i : ℕ) (sip totalInvested : JSVal) :
    Option (JSVal × JSVal) :=
  match (if i % 12 = 0 ∧ i ≠ 0 then JSVal.mul sip yearlyIncrement else some sip) with
  | none => none
  | some sip1 =>
    match JSVal.add totalInvested sip1 with
    | none => none
    | some total1 => some (sip1, total1)

/-- The loop of `calculateSIP` restricted to `sip` and `totalInvested`, on state
values, entered at index `i`; the result is the final `totalInvested`. -/
def investedLoop (months : ℚ) (yearlyIncrement : JSVal) (i : ℕ) (sip totalInvested : JSVal) :
    Option JSVal :=
  if (i : ℚ) < months then
    match investedBody yearlyIncrement i sip totalInvested with
    | none => none
    | some (sip1, total1) => investedLoop months yearlyIncrement (i + 1) sip1 total1
  else some totalInvested
termination_by (⌈months⌉ - (i : ℤ)).toNat
decreasing_by
  have h : (i : ℤ) < ⌈months⌉ := Int.lt_ceil.mpr (by exact_mod_cast ‹(i : ℚ) < months›)
  omega

/-- The value of the variable `totalInvested` at the end of the loop of
`calculateSIP`, read off the form state: `months = years * 12`,
`yearlyIncrement = 1 + stepUp / 100`, `sip = sipAmount`, `totalInvested = 0`. -/
def totalInvestedOfState (st : FormState) : Option JSVal :=
  match JSVal.mul st.years (JSVal.num 12), JSVal.div st.stepUp (JSVal.num 100) with
  | some months, some stepFraction =>
    match months.toNum, JSVal.add (JSVal.num 1) stepFraction with
    | some m, some yearlyIncrement =>
      investedLoop m yearlyIncrement 0 st.sipAmount (JSVal.num 0)
    | _, _ => none
  | _, _ => none

/-- The operand `totalInvested + lumpSum` of the subtraction in `totalInterest`. -/
def investedPlusLumpSum (st : FormState) : Option JSVal :=
  match totalInvestedOfState st with
  | some total => JSVal.add total st.lumpSum
  | none => none

/-! ## Binary64 arithmetic

The numbers of the program are IEEE 754 binary64 values, and `+`, `-`, `*`, `/`
and `%` round their exact result to the nearest such value, ties to even. This
section models them on integers, so that `calculateSIP` can be evaluated digit
for digit at a given input. -/

/-- The count of binary digits of `n` after `acc`, in at most `fuel` steps: 64
digits are dropped at a time while there are more than 64, then one at a time. -/
def bitLengthGo : ℕ → ℕ → ℕ → ℕ
  | 0, _, acc => acc
  | fuel + 1, n, acc =>
    if n = 0 then acc
    else if 2 ^ 64 ≤ n then bitLengthGo fuel (n / 2 ^ 64) (acc + 64)
    else bitLengthGo fuel (n / 2) (acc + 1)

/-- The count of binary digits of `n`: 0 for 0, and `⌊log₂ n⌋ + 1` otherwise. -/
def bitLength (n : ℕ) : ℕ := bitLengthGo n n 0

/-- A binary64 value. The finite value `fin neg m e` is `(−1)^neg × m × 2^e`, in
the form of its encoding: `m < 2^53` and `−1074 ≤ e ≤ 971`, with `2^52 ≤ m`
unless `e = −1074` (a subnormal number, or a signed zero when `m = 0`). -/
inductive F64 where
  | fin (neg : Bool) (m : ℕ) (e : ℤ)
  | inf (neg : Bool)
  | nan
  deriving DecidableEq

namespace F64

/-- The zero of the given sign. -/
def zero (neg : Bool) : F64 := fin neg 0 (-1074)

/-- The positive rational `num / den` rounded to the nearest binary64 value,
ties to even, with the sign `neg`: `l` is `⌊log₂ (num / den)⌋`, `e` the exponent
of the last kept digit, `q` and `r` the quotient and remainder at that digit.
The result overflows to an infinity from `2^1024 − 2^970` on and underflows
through the subnormal numbers to zero. -/
def roundPos (neg : Bool) (num den : ℕ) : F64 :=
  let k : ℤ := (bitLength num : ℤ) - (bitLength den : ℤ)
  let l : ℤ := if den * 2 ^ k.toNat ≤ num * 2 ^ (-k).toNat then k else k - 1
  let e : ℤ := max (l - 52) (-1074)
  let n : ℕ := num * 2 ^ (-e).toNat
  let d : ℕ := den * 2 ^ e.toNat
  let q : ℕ := n / d
  let r : ℕ := n % d
  let m : ℕ := if d < 2 * r ∨ (2 * r = d ∧ q % 2 = 1) then q + 1 else q
  if m = 2 ^ 53 then
    if 971 < e + 1 then inf neg else fin neg (2 ^ 52) (e + 1)
  else if 971 < e then inf neg
  else fin neg m e

/-- The number `(−1)^neg × n × 2^e` rounded to binary64; a zero keeps the sign. -/
def roundDyadic (neg : Bool) (n : ℕ) (e : ℤ) : F64 :=
  if n = 0 then zero neg else roundPos neg (n * 2 ^ e.toNat) (2 ^ (-e).toNat)

/-- The binary64 value of a whole number, such as a numeric literal of the source. -/
def ofInt (z : ℤ) : F64 := roundDyadic (decide (z < 0)) z.natAbs 0

/-- The exponent at which two finite values are written as whole multiples: the
smaller exponent, a zero taking the exponent of the other value. -/
def alignExp (m : ℕ) (e : ℤ) (n : ℕ) (f : ℤ) : ℤ :=
  if m = 0 then f else if n = 0 then e else min e f

/-- The whole number `±(m × 2^(e − e0))`, the value `(−1)^neg × m × 2^e` in units of `2^e0`. -/
def scaled (neg : Bool) (m : ℕ) (e e0 : ℤ) : ℤ :=
  if neg then -((m * 2 ^ (e - e0).toNat : ℕ) : ℤ) else ((m * 2 ^ (e - e0).toNat : ℕ) : ℤ)

/-- The unary minus. -/
def neg : F64 → F64
  | fin s m e => fin (!s) m e
  | inf s => inf (!s)
  | nan => nan

/-- The operator `+`. An exact sum of zero is `+0`, unless both operands are negative. -/
def add : F64 → F64 → F64
  | nan, _ => nan
  | _, nan => nan
  | inf s, inf t => if s = t then inf s else nan
  | inf s, fin _ _ _ => inf s
  | fin _ _ _, inf t => inf t
  | fin s m e, fin t n f =>
    let e0 : ℤ := alignExp m e n f
    let c : ℤ := scaled s m e e0 + scaled t n f e0
    if c = 0 then zero (s && t) else roundDyadic (decide (c < 0)) c.natAbs e0

/-- The operator `-`. -/
def sub (a b : F64) : F64 := add a (neg b)

/-- The operator `*`. -/
def mul : F64 → F64 → F64
  | nan, _ => nan
  | _, nan => nan
  | inf s, inf t => inf (s != t)
  | inf s, fin t n _ => if n = 0 then nan else inf (s != t)
  | fin s m _, inf t => if m = 0 then nan else inf (s != t)
  | fin s m e, fin t n f => roundDyadic (s != t) (m * n) (e + f)

/-- The operator `/`. -/
def div : F64 → F64 → F64
  | nan, _ => nan
  | _, nan => nan
  | inf _, inf _ => nan
  | inf s, fin t _ _ => inf (s != t)
  | fin s _ _, inf t => zero (s != t)
  | fin s m e, fin t n f =>
    if n = 0 then (if m = 0 then nan else inf (s != t))
    else if m = 0 then zero (s != t)
    else roundPos (s != t) (m * 2 ^ (e - f).toNat) (n * 2 ^ (f - e).toNat)

/-- The operator `%`: the remainder of the truncated division, which is exact
and has the sign of the dividend. -/
def mod : F64 → F64 → F64
  | nan, _ => nan
  | _, nan => nan
  | inf _, _ => nan
  | fin s m e, inf _ => fin s m e
  | fin s m e, fin _ n f =>
    if n = 0 then nan
    else if m = 0 then fin s m e
    else
      let e0 : ℤ := min e f
      roundDyadic s ((m * 2 ^ (e - e0).toNat) % (n * 2 ^ (f - e0).toNat)) e0

/-- The comparison `a < b`. -/
def lt : F64 → F64 → Bool
  | nan, _ => false
  | _, nan => false
  | inf s, inf t => s && !t
  | inf s, fin _ _ _ => s
  | fin _ _ _, inf t => !t
  | fin s m e, fin t n f =>
    let e0 : ℤ := alignExp m e n f
    decide (scaled s m e e0 < scaled t n f e0)

/-- The comparison `a === b` on numbers: the two zeros are equal, NaN equals nothing. -/
def eq : F64 → F64 → Bool
  | nan, _ => false
  | _, nan => false
  | fin _ 0 _, fin _ 0 _ => true
  | a, b => decide (a = b)

/-- The value of a finite whole number. -/
def wholeValue : F64 → Option ℤ
  | fin s m e =>
    if 0 ≤ e then some (scaled s m e 0)
    else if m % 2 ^ (-e).toNat = 0 then
      some (if s then -((m / 2 ^ (-e).toNat : ℕ) : ℤ) else ((m / 2 ^ (-e).toNat : ℕ) : ℤ))
    else none
  | _ => none

/-- The call `Math.pow(base, expo)` for a whole exponent. The cases of a zero
exponent and of a zero, infinite or NaN base are those fixed by the language.
For a finite non-zero base the language asks for an approximation of the power;
it is taken here as the exact power rounded to nearest, which is what every
implementation returns when that power is a binary64 value or lies beyond the
largest one. A fractional or infinite exponent is outside the model (NaN
here): `years` is a whole number. -/
def pow (base expo : F64) : F64 :=
  match expo with
  | nan => nan
  | inf _ => nan
  | fin _ 0 _ => ofInt 1
  | fin _ _ _ =>
    match wholeValue expo with
    | none => nan
    | some y =>
      let odd : Bool := decide (y % 2 = 1)
      match base with
      | nan => nan
      | inf s => if 0 < y then inf (s && odd) else zero (s && odd)
      | fin s m e =>
        if m = 0 then (if 0 < y then zero (s && odd) else inf (s && odd))
        else
          let bn : ℕ := m * 2 ^ e.toNat
          let bd : ℕ := 2 ^ (-e).toNat
          if 0 < y then roundPos (s && odd) (bn ^ y.natAbs) (bd ^ y.natAbs)
          else roundPos (s && odd) (bd ^ y.natAbs) (bn ^ y.natAbs)

/-- The rational value of a finite binary64 value. -/
def toRat : F64 → Option ℚ
  | fin s m e => some ((if s then -1 else 1) * (m : ℚ) * 2 ^ e)
  | _ => none

end F64

/-! ## `calculateSIP` in binary64 -/

/-- The six inputs as the binary64 values held by the state. -/
structure Inputs64 where
  sipAmount : F64
  annualReturn : F64
  years : F64
  lumpSum : F64
  stepUp : F64
  inflationRate : F64

/-- The object returned by `calculateSIP`, in binary64. -/
structure Outputs64 where
  futureValue : F64
  lumpSumFuture : F64
  adjustedFutureValue : F64
  totalInvested : F64
  totalInterest : F64
  deriving DecidableEq

/-- The variables of the loop, in binary64; the counter `i` is a number too. -/
structure LoopState64 where
  i : F64
  futureValue : F64
  sip : F64
  totalInvested : F64
  deriving DecidableEq

/-- One pass through the body of the loop, the increment `i++` included. -/
def loopBody64 (monthlyRate yearlyIncrement : F64) (s : LoopState64) : LoopState64 :=
  let sip :=
    if F64.eq (F64.mod s.i (F64.ofInt 12)) (F64.ofInt 0) && !(F64.eq s.i (F64.ofInt 0)) then
      F64.mul s.sip yearlyIncrement
    else s.sip
  { i := F64.add s.i (F64.ofInt 1)
    futureValue := F64.mul (F64.add s.futureValue sip) (F64.add (F64.ofInt 1) monthlyRate)
    sip := sip
    totalInvested := F64.add s.totalInvested sip }

/-- The loop `for (...; i < months; i++) { ... }`, entered in state `s`, run for
at most `fuel` tests of its condition: `none` when the loop has not ended by then. -/
def forLoop64 (months monthlyRate yearlyIncrement : F64) : ℕ → LoopState64 → Option LoopState64
  | 0, _ => none
  | fuel + 1, s =>
    if F64.lt s.i months then
      forLoop64 months monthlyRate yearlyIncrement fuel (loopBody64 monthlyRate yearlyIncrement s)
    else some s

/-- The function `calculateSIP` in binary64, its loop run for at most `fuel`
tests of the condition. -/
def calculateSIP64 (fuel : ℕ) (inp : Inputs64) : Option Outputs64 :=
  let monthlyRate := F64.div (F64.div inp.annualReturn (F64.ofInt 100)) (F64.ofInt 12)
  let months := F64.mul inp.years (F64.ofInt 12)
  let yearlyIncrement := F64.add (F64.ofInt 1) (F64.div inp.stepUp (F64.ofInt 100))
  match forLoop64 months monthlyRate yearlyIncrement fuel
      { i := F64.ofInt 0, futureValue := F64.ofInt 0, sip := inp.sipAmount,
        totalInvested := F64.ofInt 0 } with
  | none => none
  | some s =>
    let futureValue := s.futureValue
    let totalInvested := s.totalInvested
    let lumpSumFuture :=
      F64.mul inp.lumpSum
        (F64.pow (F64.add (F64.ofInt 1) (F64.div inp.annualReturn (F64.ofInt 100))) inp.years)
    let adjustedFutureValue :=
      F64.div (F64.add futureValue lumpSumFuture)
        (F64.pow (F64.add (F64.ofInt 1) (F64.div inp.inflationRate (F64.ofInt 100))) inp.years)
    let totalInterest :=
      F64.sub (F64.add futureValue lumpSumFuture) (F64.add totalInvested inp.lumpSum)
    some
      { futureValue := futureValue
        lumpSumFuture := lumpSumFuture
        adjustedFutureValue := adjustedFutureValue
        totalInvested := totalInvested
        totalInterest := totalInterest }

/-- The inputs given as whole numbers. -/
def Inputs64.ofInts (sipAmount annualReturn years lumpSum stepUp inflationRate : ℤ) : Inputs64 :=
  { sipAmount := F64.ofInt sipAmount
    annualReturn := F64.ofInt annualReturn
    years := F64.ofInt years
    lumpSum := F64.ofInt lumpSum
    stepUp := F64.ofInt stepUp
    inflationRate := F64.ofInt inflationRate }

/-- The data of the 'Investment Growth' series in binary64, one entry per index
`i` below `years`: `calculateSIP().futureValue / (i + 1)`. -/
def chartSeries64 (fuel : ℕ) (inp : Inputs64) : Option (List F64) :=
  match calculateSIP64 fuel inp, F64.wholeValue inp.years with
  | some out, some y =>
    some (List.map
      (fun i : ℕ => F64.div out.futureValue (F64.add (F64.ofInt (i : ℤ)) (F64.ofInt 1)))
      (List.range y.toNat))
  | _, _ => none

/-! ## The loop on extended numbers

The loop of `calculateSIP` once more in exact arithmetic, this time on values
that may be infinite or NaN, to show that from finite inputs it stays finite. -/

/-- The variables of the loop as extended numbers. -/
structure LoopStateNum where
  i : ℕ
  futureValue : JSNum
  sip : JSNum
  totalInvested : JSNum

/-- One pass through the body of the loop on extended numbers. -/
def loopBodyNum (monthlyRate yearlyIncrement : JSNum) (s : LoopStateNum) : LoopStateNum :=
  let sip := if s.i % 12 = 0 ∧ s.i ≠ 0 then JSNum.mul s.sip yearlyIncrement else s.sip
  { i := s.i + 1
    futureValue := JSNum.mul (JSNum.add s.futureValue sip) (JSNum.add (JSNum.fin 1) monthlyRate)
    sip := sip
    totalInvested := JSNum.add s.totalInvested sip }

/-- The loop `for (...; i < months; i++) { ... }` on extended numbers. -/
def forLoopNum (months : ℤ) (monthlyRate yearlyIncrement : JSNum) (s : LoopStateNum) :
    LoopStateNum :=
  if (s.i : ℤ) < months then
    forLoopNum months monthlyRate yearlyIncrement (loopBodyNum monthlyRate yearlyIncrement s)
  else s
termination_by (months - s.i).toNat
decreasing_by
  simp only [loopBodyNum]
  omega

/-- The state in which the loop of `calculateSIP` ends, on extended numbers. -/
def finalLoopStateNum (inp : Inputs) : LoopStateNum :=
  let monthlyRate := JSNum.div (JSNum.div (JSNum.fin inp.annualReturn) (JSNum.fin 100)) (JSNum.fin 12)
  let months := inp.years * 12
  let yearlyIncrement := JSNum.add (JSNum.fin 1) (JSNum.div (JSNum.fin inp.stepUp) (JSNum.fin 100))
  forLoopNum months monthlyRate yearlyIncrement
    { i := 0, futureValue := JSNum.fin 0, sip := JSNum.fin inp.sipAmount,
      totalInvested := JSNum.fin 0 }

/-! ## The loop, unrolled -/

theorem forLoop_unfold (months : ℤ) (r g : ℚ) (s : LoopState) :
    forLoop months r g s =
      if (s.i : ℤ) < months then forLoop months r g (loopBody r g s) else s := by
  rw [forLoop]

theorem loopBody_iterate_i (r g : ℚ) (k : ℕ) (s : LoopState) :
    ((loopBody r g)^[k] s).i = s.i + k := by
  induction k generalizing s with
  | zero => simp
  | succ k ih =>
    rw [Function.iterate_succ_apply, ih]
    simp only [loopBody]
    omega

/-- The loop runs its body `months - i` times, and not at all when that is negative. -/
theorem forLoop_eq_iterate (months : ℤ) (r g : ℚ) (s : LoopState) :
    forLoop months r g s = (loopBody r g)^[(months - s.i).toNat] s := by
  generalize hk : (months - s.i).toNat = k
  induction k generalizing s with
  | zero =>
    rw [forLoop_unfold, if_neg (by omega)]
    rfl
  | succ k ih =>
    rw [forLoop_unfold, if_pos (by omega), Function.iterate_succ_apply]
    apply ih
    simp only [loopBody]
    omega

theorem contribution_step (P g : ℚ) (k : ℕ) :
    (if k % 12 = 0 ∧ k ≠ 0 then P * g ^ ((k - 1) / 12) * g else P * g ^ ((k - 1) / 12)) =
      contribution P g k := by
  unfold contribution
  split_ifs with h
  · have : k / 12 = (k - 1) / 12 + 1 := by omega
    rw [this, pow_succ, mul_assoc]
  · have : k / 12 = (k - 1) / 12 := by omega
    rw [this]

/-- The loop variables after `k` passes from the initial state of `calculateSIP`. -/
theorem loopBody_iterate_init (P r g : ℚ) (k : ℕ) :
    (loopBody r g)^[k] { i := 0, futureValue := 0, sip := P, totalInvested := 0 } =
      { i := k
        futureValue := ∑ j in Finset.range k, contribution P g j * (1 + r) ^ (k - j)
        sip := P * g ^ ((k - 1) / 12)
        totalInvested := ∑ j in Finset.range k, contribution P g j } := by
  induction k with
  | zero => simp
  | succ k ih =>
    rw [Function.iterate_succ_apply', ih]
    simp only [loopBody, contribution_step]
    congr 1
    · rw [Finset.sum_range_succ, add_mul, Finset.sum_mul]
      congr 1
      · refine Finset.sum_congr rfl fun j hj => ?_
        have hjk : j < k := Finset.mem_range.mp hj
        have : k + 1 - j = (k - j) + 1 := by omega
        rw [this, pow_succ, mul_assoc]
      · have : k + 1 - k = 1 := by omega
        rw [this, pow_one]
    · rw [Finset.sum_range_succ]

/-- The loop body runs `max(0, 12 × years)` times, whatever the sign of `years`. -/
theorem loopIterations_eq (inp : Inputs) :
    loopIterations inp = (inp.years * 12).toNat := by
  unfold loopIterations finalLoopState
  simp only [forLoop_eq_iterate, loopBody_iterate_i]
  simp

/-- The final loop state: the closed form of the loop variables after
`max(0, 12 × years)` passes. -/
theorem finalLoopState_eq (inp : Inputs) :
    finalLoopState inp =
      { i := (inp.years * 12).toNat
        futureValue := ∑ j in Finset.range (inp.years * 12).toNat,
          contribution inp.sipAmount (1 + inp.stepUp / 100) j *
            (1 + inp.annualReturn / 100 / 12) ^ ((inp.years * 12).toNat - j)
        sip := inp.sipAmount * (1 + inp.stepUp / 100) ^ (((inp.years * 12).toNat - 1) / 12)
        totalInvested := ∑ j in Finset.range (inp.years * 12).toNat,
          contribution inp.sipAmount (1 + inp.stepUp / 100) j } := by
  unfold finalLoopState
  simp only [forLoop_eq_iterate]
  have : (inp.years * 12 - ((0 : ℕ) : ℤ)).toNat = (inp.years * 12).toNat := by simp
  rw [this, loopBody_iterate_init]

/-- The final loop state for a horizon of `Y ≥ 0` whole years. -/
theorem finalLoopState_ofNat (P a L s f : ℚ) (Y : ℕ) :
    finalLoopState ⟨P, a, (Y : ℤ), L, s, f⟩ =
      { i := 12 * Y
        futureValue := ∑ j in Finset.range (12 * Y),
          contribution P (1 + s / 100) j * (1 + a / 100 / 12) ^ (12 * Y - j)
        sip := P * (1 + s / 100) ^ ((12 * Y - 1) / 12)
        totalInvested := ∑ j in Finset.range (12 * Y), contribution P (1 + s / 100) j } := by
  have : ((Y : ℤ) * 12).toNat = 12 * Y := by omega
  rw [finalLoopState_eq]
  simp only [this]

/-- With no step-up the compounded contributions form a geometric series. -/
theorem geometric_future_value (P x : ℚ) (hx : x ≠ 1) (n : ℕ) :
    ∑ j in Finset.range n, P * x ^ (n - j) = P * ((x ^ n - 1) / (x - 1)) * x := by
  have hx1 : x - 1 ≠ 0 := sub_ne_zero.mpr hx
  induction n with
  | zero => simp
  | succ n ih =>
    have step : ∑ j in Finset.range (n + 1), P * x ^ (n + 1 - j) =
        (∑ j in Finset.range n, P * x ^ (n - j) + P) * x := by
      rw [Finset.sum_range_succ, add_mul, Finset.sum_mul]
      congr 1
      · refine Finset.sum_congr rfl fun j hj => ?_
        have hjn : j < n := Finset.mem_range.mp hj
        have : n + 1 - j = (n - j) + 1 := by omega
        rw [this, pow_succ, mul_assoc]
      · have : n + 1 - n = 1 := by omega
        rw [this, pow_one]
    have key : (x ^ (n + 1) - 1) / (x - 1) = (x ^ n - 1) / (x - 1) * x + 1 := by
      rw [div_eq_iff hx1, add_mul, mul_assoc, mul_comm x (x - 1), ← mul_assoc,
        div_mul_cancel₀ _ hx1]
      ring
    rw [step, ih, key]
    ring

/-- Twelve equal contributions are made in each year. -/
theorem sum_contribution_years (P g : ℚ) (Y : ℕ) :
    ∑ j in Finset.range (12 * Y), contribution P g j =
      12 * P * ∑ y in Finset.range Y, g ^ y := by
  induction Y with
  | zero => simp
  | succ Y ih =>
    have h12 : 12 * (Y + 1) = 12 * Y + 12 := by ring
    rw [h12, Finset.sum_range_add, ih, Finset.sum_range_succ _ Y]
    have hyear : ∑ x in Finset.range 12, contribution P g (12 * Y + x) =
        ∑ _x in Finset.range 12, P * g ^ Y := by
      refine Finset.sum_congr rfl fun x hx => ?_
      have hx12 : x < 12 := Finset.mem_range.mp hx
      have : (12 * Y + x) / 12 = Y := by omega
      rw [contribution, this]
    rw [hyear, Finset.sum_const, Finset.card_range]
    simp only [nsmul_eq_mul]
    push_cast
    ring

/-! ## The outputs of `calculateSIP` -/

/-- C1: with no step-up and a non-zero annual return, the future value of the
monthly contributions over a whole number of years is the closed form
`P × [((1 + r)^n − 1) / r] × (1 + r)`, with `r = annualReturn / 100 / 12` and
`n = 12 × years`. -/
theorem futureValue_closed_form (P a L f : ℚ) (Y : ℕ) (ha : a ≠ 0) :
    (calculateSIP ⟨P, a, (Y : ℤ), L, 0, f⟩).futureValue =
      P * (((1 + a / 100 / 12) ^ (12 * Y) - 1) / (a / 100 / 12)) * (1 + a / 100 / 12) := by
  have hr : a / 100 / 12 ≠ 0 := by
    simp only [ne_eq, div_eq_zero_iff, ha, false_or]
    norm_num
  have hx : 1 + a / 100 / 12 ≠ 1 := by simpa using hr
  have hg : ∀ j : ℕ, contribution P (1 + 0 / 100) j = P := by
    intro j
    simp [contribution]
  simp only [calculateSIP, finalLoopState_ofNat, hg]
  rw [geometric_future_value P _ hx, add_sub_cancel_left]

/-- C1, the default scenario: 5000 a month at 12% for 10 years. -/
theorem futureValue_closed_form_witness :
    (12 : ℚ) ≠ 0 ∧
    (calculateSIP ⟨5000, 12, ((10 : ℕ) : ℤ), 0, 0, 0⟩).futureValue =
      5000 * (((1 + 12 / 100 / 12) ^ (12 * 10) - 1) / (12 / 100 / 12)) * (1 + 12 / 100 / 12) ∧
    1161695 < (calculateSIP ⟨5000, 12, ((10 : ℕ) : ℤ), 0, 0, 0⟩).futureValue ∧
    (calculateSIP ⟨5000, 12, ((10 : ℕ) : ℤ), 0, 0, 0⟩).futureValue < 1161696 := by
  have h := futureValue_closed_form 5000 12 0 0 10 (by norm_num)
  refine ⟨by norm_num, h, ?_, ?_⟩
  · rw [h]
    norm_num
  · rw [h]
    norm_num

/-- C2: over a whole number of years the total invested is
`12 × sipAmount × Σ_{y < years} (1 + stepUp/100)^y`, whatever the annual
return; with no step-up it is `sipAmount × months`. -/
theorem totalInvested_closed_form (P a L s f : ℚ) (Y : ℕ) :
    (calculateSIP ⟨P, a, (Y : ℤ), L, s, f⟩).totalInvested =
        12 * P * ∑ y in Finset.range Y, (1 + s / 100) ^ y ∧
    (calculateSIP ⟨P, a, (Y : ℤ), L, 0, f⟩).totalInvested = P * (12 * (Y : ℚ)) := by
  simp only [calculateSIP, finalLoopState_ofNat, sum_contribution_years]
  refine ⟨trivial, ?_⟩
  simp
  ring

/-- C2, the step-up scenario: 1000 a month stepped up by 10% for 2 years at no return. -/
theorem totalInvested_closed_form_witness :
    (calculateSIP ⟨1000, 0, ((2 : ℕ) : ℤ), 0, 10, 0⟩).totalInvested = 1000 * 12 + 1100 * 12 ∧
    (calculateSIP ⟨1000, 0, ((2 : ℕ) : ℤ), 0, 10, 0⟩).totalInvested = 25200 := by
  have h := (totalInvested_closed_form 1000 0 0 10 0 2).1
  constructor
  · rw [h]
    norm_num [Finset.sum_range_succ]
  · rw [h]
    norm_num [Finset.sum_range_succ]

/-- C10: over a whole number of years the future value is the sum of the
monthly contributions, the contribution of month `i` compounded for `m − i`
months, with `m = 12 × years`. -/
theorem futureValue_contribution_sum (P a L s f : ℚ) (Y : ℕ) :
    (calculateSIP ⟨P, a, (Y : ℤ), L, s, f⟩).futureValue =
      ∑ i in Finset.range (12 * Y),
        (P * (1 + s / 100) ^ (i / 12)) * (1 + a / 100 / 12) ^ (12 * Y - i) := by
  simp only [calculateSIP, finalLoopState_ofNat, contribution]

/-- C4: for a horizon of 0 years the loop body never runs, the future value
and the total invested are 0 and the lump sum is returned unchanged. -/
theorem zero_years (P a L s f : ℚ) :
    loopIterations ⟨P, a, 0, L, s, f⟩ = 0 ∧
    (calculateSIP ⟨P, a, 0, L, s, f⟩).futureValue = 0 ∧
    (calculateSIP ⟨P, a, 0, L, s, f⟩).totalInvested = 0 ∧
    (calculateSIP ⟨P, a, 0, L, s, f⟩).lumpSumFuture = JSNum.fin L := by
  refine ⟨?_, ?_, ?_, ?_⟩
  · simp [loopIterations_eq]
  · simp [calculateSIP, finalLoopState_eq]
  · simp [calculateSIP, finalLoopState_eq]
  · simp [calculateSIP, JSNum.pow, JSNum.mul]

/-- Subtracting a finite sum is subtracting its two terms in turn. -/
theorem JSNum.sub_fin_add (x : JSNum) (a b : ℚ) :
    JSNum.sub x (JSNum.add (JSNum.fin a) (JSNum.fin b)) =
      JSNum.sub (JSNum.sub x (JSNum.fin a)) (JSNum.fin b) := by
  cases x <;> simp [JSNum.sub, JSNum.add, JSNum.neg]
  ring

/-- C5: for every input the total interest is
`futureValue + lumpSumFuture − totalInvested − lumpSum`, computed from the
values returned by the same call. -/
theorem totalInterest_identity (inp : Inputs) :
    (calculateSIP inp).totalInterest =
      JSNum.sub
        (JSNum.sub
          (JSNum.add (JSNum.fin (calculateSIP inp).futureValue) (calculateSIP inp).lumpSumFuture)
          (JSNum.fin (calculateSIP inp).totalInvested))
        (JSNum.fin inp.lumpSum) := by
  simp only [calculateSIP, JSNum.sub_fin_add]

/-- C6: over a whole number of years and for an inflation rate other than
−100, the adjusted future value times `(1 + inflationRate/100)^years` is
`futureValue + lumpSumFuture`; for an inflation rate of 0 it is
`futureValue + lumpSumFuture` itself. -/
theorem adjustedFutureValue_deflated (P a L s f : ℚ) (Y : ℕ) (hf : f ≠ -100) :
    JSNum.mul (calculateSIP ⟨P, a, (Y : ℤ), L, s, f⟩).adjustedFutureValue
        (JSNum.pow (1 + f / 100) (Y : ℤ)) =
      JSNum.add (JSNum.fin (calculateSIP ⟨P, a, (Y : ℤ), L, s, f⟩).futureValue)
        (calculateSIP ⟨P, a, (Y : ℤ), L, s, f⟩).lumpSumFuture ∧
    (calculateSIP ⟨P, a, (Y : ℤ), L, s, 0⟩).adjustedFutureValue =
      JSNum.add (JSNum.fin (calculateSIP ⟨P, a, (Y : ℤ), L, s, 0⟩).futureValue)
        (calculateSIP ⟨P, a, (Y : ℤ), L, s, 0⟩).lumpSumFuture := by
  have hd : 1 + f / 100 ≠ 0 := by
    intro h
    apply hf
    linarith
  have hpow : (1 + f / 100) ^ Y ≠ 0 := pow_ne_zero _ hd
  have hneg : ¬ ((Y : ℤ) < 0) := by omega
  constructor
  · simp only [calculateSIP, JSNum.pow, hneg, and_false, if_false, zpow_natCast, JSNum.mul,
      JSNum.add, JSNum.div, if_neg hpow]
    rw [div_mul_cancel₀ _ hpow]
  · simp [calculateSIP, JSNum.pow, hneg, JSNum.mul, JSNum.add, JSNum.div]

/-- C6, the inflation scenario: 6% inflation over 10 years and no lump sum. -/
theorem adjustedFutureValue_deflated_witness :
    (6 : ℚ) ≠ -100 ∧
    JSNum.mul (calculateSIP ⟨5000, 12, ((10 : ℕ) : ℤ), 0, 0, 6⟩).adjustedFutureValue
        (JSNum.pow (1 + 6 / 100) ((10 : ℕ) : ℤ)) =
      JSNum.add (JSNum.fin (calculateSIP ⟨5000, 12, ((10 : ℕ) : ℤ), 0, 0, 6⟩).futureValue)
        (calculateSIP ⟨5000, 12, ((10 : ℕ) : ℤ), 0, 0, 6⟩).lumpSumFuture ∧
    (calculateSIP ⟨5000, 12, ((10 : ℕ) : ℤ), 0, 0, 6⟩).adjustedFutureValue =
      JSNum.fin ((calculateSIP ⟨5000, 12, ((10 : ℕ) : ℤ), 0, 0, 6⟩).futureValue /
        (1 + 6 / 100) ^ 10) := by
  refine ⟨by norm_num, (adjustedFutureValue_deflated 5000 12 0 0 6 10 (by norm_num)).1, ?_⟩
  have hpow : ((1 : ℚ) + 6 / 100) ^ 10 ≠ 0 := by norm_num
  have hneg : ¬ (((10 : ℕ) : ℤ) < 0) := by omega
  simp only [calculateSIP, JSNum.pow, hneg, and_false, if_false, zpow_natCast, JSNum.mul,
    JSNum.add, JSNum.div, if_neg hpow, zero_mul, add_zero]

/-! ## Zero bases and zero divisors -/

theorem one_add_percent_eq_zero (x : ℚ) : 1 + x / 100 = 0 ↔ x = -100 := by
  constructor
  · intro h
    linarith
  · intro h
    rw [h]
    norm_num

theorem JSNum.isFinite_infTimes (q : ℚ) : JSNum.isFinite (JSNum.infTimes q) = false := by
  unfold JSNum.infTimes
  split_ifs <;> rfl

/-- The power is `+∞` for the base 0 under a negative exponent, 0 for the base 0
under a positive exponent, and a non-zero finite number otherwise. -/
theorem JSNum.pow_cases (d : ℚ) (e : ℤ) :
    (d = 0 ∧ e < 0 ∧ JSNum.pow d e = JSNum.posInf) ∨
    (d = 0 ∧ 0 < e ∧ JSNum.pow d e = JSNum.fin 0) ∨
    (¬ (d = 0 ∧ e < 0) ∧ ¬ (d = 0 ∧ 0 < e) ∧ d ^ e ≠ 0 ∧ JSNum.pow d e = JSNum.fin (d ^ e)) := by
  unfold JSNum.pow
  by_cases hd : d = 0
  · rcases lt_trichotomy e 0 with he | he | he
    · left
      exact ⟨hd, he, by simp [hd, he]⟩
    · right; right
      subst he
      refine ⟨by simp, by simp, by simp, by simp⟩
    · right; left
      have hne : e ≠ 0 := ne_of_gt he
      have hnl : ¬ e < 0 := not_lt.mpr he.le
      refine ⟨hd, he, ?_⟩
      simp [hd, hnl, zero_zpow e hne]
  · right; right
    refine ⟨by simp [hd], by simp [hd], zpow_ne_zero e hd, by simp [hd]⟩

/-- The three outputs that go through `Math.pow` are all finite unless the
lump-sum power has base 0 under a negative exponent or the inflation divisor is 0. -/
theorem outputs_finite_iff (inp : Inputs) :
    ((calculateSIP inp).lumpSumFuture.isFinite = true ∧
      (calculateSIP inp).adjustedFutureValue.isFinite = true ∧
      (calculateSIP inp).totalInterest.isFinite = true) ↔
    (¬ (inp.annualReturn = -100 ∧ inp.years < 0) ∧
      ¬ (inp.inflationRate = -100 ∧ 0 < inp.years)) := by
  simp only [calculateSIP]
  rcases JSNum.pow_cases (1 + inp.annualReturn / 100) inp.years with
    ⟨ha, he, hp⟩ | ⟨ha, he, hp⟩ | ⟨ha1, ha2, hane, hp⟩
  · rw [one_add_percent_eq_zero] at ha
    rw [hp]
    simp [JSNum.mul, JSNum.isFinite_infTimes, ha, he]
  · rw [one_add_percent_eq_zero] at ha
    have hnl : ¬ inp.years < 0 := not_lt.mpr he.le
    rw [hp]
    rcases JSNum.pow_cases (1 + inp.inflationRate / 100) inp.years with
      ⟨hf, hy, hq⟩ | ⟨hf, hy, hq⟩ | ⟨hf1, hf2, hfne, hq⟩
    · exact absurd hy hnl
    · rw [one_add_percent_eq_zero] at hf
      rw [hq]
      simp [JSNum.mul, JSNum.add, JSNum.div, JSNum.isFinite_infTimes, hf, he]
    · rw [one_add_percent_eq_zero] at hf2
      rw [hq]
      simp [JSNum.mul, JSNum.add, JSNum.sub, JSNum.neg, JSNum.div, JSNum.isFinite, hfne, hnl,
        hf2]
  · rw [one_add_percent_eq_zero] at ha1
    rw [hp]
    rcases JSNum.pow_cases (1 + inp.inflationRate / 100) inp.years with
      ⟨hf, hy, hq⟩ | ⟨hf, hy, hq⟩ | ⟨hf1, hf2, hfne, hq⟩
    · have hnl : ¬ 0 < inp.years := not_lt.mpr hy.le
      rw [hq]
      simp [JSNum.mul, JSNum.add, JSNum.sub, JSNum.neg, JSNum.div, JSNum.isFinite, ha1, hnl]
    · rw [one_add_percent_eq_zero] at hf
      rw [hq]
      simp [JSNum.mul, JSNum.add, JSNum.div, JSNum.isFinite_infTimes, hf, hy]
    · rw [one_add_percent_eq_zero] at hf2
      rw [hq]
      simp [JSNum.mul, JSNum.add, JSNum.sub, JSNum.neg, JSNum.div, JSNum.isFinite, hfne, ha1,
        hf2]

/-- C8, as the code has it: for every finite input with a whole number of
years the loop ends after exactly `max(0, 12 × years)` passes; `futureValue`
and `totalInvested` are always finite, and `lumpSumFuture`,
`adjustedFutureValue` and `totalInterest` are all finite exactly when neither
`annualReturn = −100` with `years < 0` nor `inflationRate = −100` with
`years > 0`. -/
theorem calculateSIP_defined_iff (inp : Inputs) :
    (loopIterations inp : ℤ) = max 0 (12 * inp.years) ∧
    (((calculateSIP inp).lumpSumFuture.isFinite = true ∧
        (calculateSIP inp).adjustedFutureValue.isFinite = true ∧
        (calculateSIP inp).totalInterest.isFinite = true) ↔
      (¬ (inp.annualReturn = -100 ∧ inp.years < 0) ∧
        ¬ (inp.inflationRate = -100 ∧ 0 < inp.years))) := by
  refine ⟨?_, outputs_finite_iff inp⟩
  rw [loopIterations_eq]
  omega

/-- C8 at the defaults: 120 passes and finite outputs. -/
theorem calculateSIP_defined_iff_witness :
    (loopIterations ⟨5000, 12, 10, 0, 0, 0⟩ : ℤ) = 120 ∧
    (calculateSIP ⟨5000, 12, 10, 0, 0, 0⟩).lumpSumFuture.isFinite = true ∧
    (calculateSIP ⟨5000, 12, 10, 0, 0, 0⟩).adjustedFutureValue.isFinite = true ∧
    (calculateSIP ⟨5000, 12, 10, 0, 0, 0⟩).totalInterest.isFinite = true := by
  have h := calculateSIP_defined_iff ⟨5000, 12, 10, 0, 0, 0⟩
  refine ⟨?_, h.2.mpr ⟨by norm_num, by norm_num⟩⟩
  rw [h.1]
  norm_num

/-- C8 fails as stated: at the defaults with `inflationRate = -100` the divisor
`Math.pow(1 + inflationRate / 100, years)` is 0 and `adjustedFutureValue` is
not a finite number. -/
theorem calculateSIP_zero_divisor :
    JSNum.pow (1 + (-100 : ℚ) / 100) 10 = JSNum.fin 0 ∧
    (calculateSIP ⟨5000, 12, 10, 0, 0, -100⟩).adjustedFutureValue.isFinite = false := by
  have hp : JSNum.pow (1 + (-100 : ℚ) / 100) 10 = JSNum.fin 0 := by
    norm_num [JSNum.pow]
  refine ⟨hp, ?_⟩
  simp only [calculateSIP, hp]
  norm_num [JSNum.pow, JSNum.mul, JSNum.add, JSNum.div, JSNum.isFinite_infTimes]

/-- C3, as the code has it: with `sipAmount = 0` and `lumpSum = 0`, and for
every annual return, whole number of years, step-up and inflation rate,
`futureValue` and `totalInvested` are 0, and `lumpSumFuture`,
`adjustedFutureValue` and `totalInterest` are all 0 exactly when neither
`annualReturn = −100` with `years < 0` nor `inflationRate = −100` with
`years > 0`. -/
theorem zero_contributions (a s f : ℚ) (years : ℤ) :
    (calculateSIP ⟨0, a, years, 0, s, f⟩).futureValue = 0 ∧
    (calculateSIP ⟨0, a, years, 0, s, f⟩).totalInvested = 0 ∧
    (((calculateSIP ⟨0, a, years, 0, s, f⟩).lumpSumFuture = JSNum.fin 0 ∧
        (calculateSIP ⟨0, a, years, 0, s, f⟩).adjustedFutureValue = JSNum.fin 0 ∧
        (calculateSIP ⟨0, a, years, 0, s, f⟩).totalInterest = JSNum.fin 0) ↔
      (¬ (a = -100 ∧ years < 0) ∧ ¬ (f = -100 ∧ 0 < years))) := by
  have hfv : (finalLoopState ⟨0, a, years, 0, s, f⟩).futureValue = 0 := by
    simp [finalLoopState_eq, contribution]
  have hti : (finalLoopState ⟨0, a, years, 0, s, f⟩).totalInvested = 0 := by
    simp [finalLoopState_eq, contribution]
  simp only [calculateSIP, hfv, hti]
  refine ⟨trivial, trivial, ?_⟩
  rcases JSNum.pow_cases (1 + a / 100) years with
    ⟨ha, he, hp⟩ | ⟨ha, he, hp⟩ | ⟨ha1, ha2, hane, hp⟩
  · rw [one_add_percent_eq_zero] at ha
    rw [hp]
    simp [JSNum.mul, JSNum.infTimes, ha, he]
  · rw [one_add_percent_eq_zero] at ha
    have hnl : ¬ years < 0 := not_lt.mpr he.le
    rw [hp]
    rcases JSNum.pow_cases (1 + f / 100) years with
      ⟨hf, hy, hq⟩ | ⟨hf, hy, hq⟩ | ⟨hf1, hf2, hfne, hq⟩
    · exact absurd hy hnl
    · rw [one_add_percent_eq_zero] at hf
      rw [hq]
      simp [JSNum.mul, JSNum.add, JSNum.div, JSNum.infTimes, hf, he]
    · rw [one_add_percent_eq_zero] at hf2
      rw [hq]
      simp [JSNum.mul, JSNum.add, JSNum.sub, JSNum.neg, JSNum.div, hfne, hnl, hf2]
  · rw [one_add_percent_eq_zero] at ha1
    rw [hp]
    rcases JSNum.pow_cases (1 + f / 100) years with
      ⟨hf, hy, hq⟩ | ⟨hf, hy, hq⟩ | ⟨hf1, hf2, hfne, hq⟩
    · have hnl : ¬ 0 < years := not_lt.mpr hy.le
      rw [hq]
      simp [JSNum.mul, JSNum.add, JSNum.sub, JSNum.neg, JSNum.div, ha1, hnl]
    · rw [one_add_percent_eq_zero] at hf
      rw [hq]
      simp [JSNum.mul, JSNum.add, JSNum.div, JSNum.infTimes, hf, hy]
    · rw [one_add_percent_eq_zero] at hf2
      rw [hq]
      simp [JSNum.mul, JSNum.add, JSNum.sub, JSNum.neg, JSNum.div, hfne, ha1, hf2]

/-- C3 at the default rates: every output is 0. -/
theorem zero_contributions_witness :
    (calculateSIP ⟨0, 12, 10, 0, 0, 0⟩).futureValue = 0 ∧
    (calculateSIP ⟨0, 12, 10, 0, 0, 0⟩).totalInvested = 0 ∧
    (calculateSIP ⟨0, 12, 10, 0, 0, 0⟩).lumpSumFuture = JSNum.fin 0 ∧
    (calculateSIP ⟨0, 12, 10, 0, 0, 0⟩).adjustedFutureValue = JSNum.fin 0 ∧
    (calculateSIP ⟨0, 12, 10, 0, 0, 0⟩).totalInterest = JSNum.fin 0 := by
  have h := zero_contributions 12 0 0 10
  exact ⟨h.1, h.2.1, h.2.2.mpr ⟨by norm_num, by norm_num⟩⟩

/-- C3 fails as stated: with `sipAmount = 0`, `lumpSum = 0`, `years = 1` and
`inflationRate = -100` the adjusted future value is `0 / 0`, which is NaN. -/
theorem nan_at_zero_contributions :
    (calculateSIP ⟨0, 12, 1, 0, 0, -100⟩).adjustedFutureValue = JSNum.nan ∧
    (calculateSIP ⟨0, 12, 1, 0, 0, -100⟩).adjustedFutureValue ≠ JSNum.fin 0 := by
  have hfv : (finalLoopState ⟨0, 12, 1, 0, 0, -100⟩).futureValue = 0 := by
    simp [finalLoopState_eq, contribution]
  have h : (calculateSIP ⟨0, 12, 1, 0, 0, -100⟩).adjustedFutureValue = JSNum.nan := by
    simp only [calculateSIP, hfv]
    norm_num [JSNum.pow, JSNum.mul, JSNum.add, JSNum.div, JSNum.infTimes]
  rw [h]
  exact ⟨rfl, by simp⟩

/-! ## The chart series, characterised -/

/-- Dividing a positive amount by the next year index gives less, and only then. -/
theorem JSNum.lt_div_succ (v : ℚ) (m : ℕ) :
    JSNum.lt (JSNum.div (JSNum.fin v) (JSNum.fin (((m + 1 : ℕ) : ℚ) + 1)))
        (JSNum.div (JSNum.fin v) (JSNum.fin ((m : ℚ) + 1))) = true ↔ 0 < v := by
  have h1 : (0 : ℚ) < (m : ℚ) + 1 := by positivity
  have h2 : (0 : ℚ) < ((m + 1 : ℕ) : ℚ) + 1 := by positivity
  simp only [JSNum.div, if_neg h1.ne', if_neg h2.ne', JSNum.lt, decide_eq_true_eq]
  rw [div_lt_div_iff₀ h2 h1]
  push_cast
  constructor
  · intro h
    nlinarith
  · intro h
    nlinarith

/-- C7, as the code has it: over a whole number of years the 'Investment
Growth' series has `years` entries labelled 1..years, the entry for year `y` is
the final future value divided by `y`, and each entry is smaller than the one
before it exactly when there are fewer than two entries or the final future
value is positive. -/
theorem chartSeries_spec (P a L s f : ℚ) (Y : ℕ) :
    chartLabels ⟨P, a, (Y : ℤ), L, s, f⟩ = List.range' 1 Y ∧
    (chartSeries ⟨P, a, (Y : ℤ), L, s, f⟩).length = Y ∧
    (∀ y : ℕ, 1 ≤ y → y ≤ Y →
      (chartSeries ⟨P, a, (Y : ℤ), L, s, f⟩)[y - 1]? =
        some (JSNum.fin ((calculateSIP ⟨P, a, (Y : ℤ), L, s, f⟩).futureValue / (y : ℚ)))) ∧
    (List.Chain' (fun x y => JSNum.lt y x = true) (chartSeries ⟨P, a, (Y : ℤ), L, s, f⟩) ↔
      (Y ≤ 1 ∨ 0 < (calculateSIP ⟨P, a, (Y : ℤ), L, s, f⟩).futureValue)) := by
  refine ⟨?_, ?_, ?_, ?_⟩
  · simp only [chartLabels, Int.toNat_ofNat, List.range'_eq_map_range]
    exact List.map_congr_left fun i _ => Nat.add_comm i 1
  · simp [chartSeries]
  · intro y h1 hY
    have hlt : y - 1 < Y := by omega
    have hpos : (y : ℚ) ≠ 0 := by
      have : (0 : ℚ) < (y : ℚ) := by exact_mod_cast h1
      exact this.ne'
    have hy : ((y - 1 : ℕ) : ℚ) + 1 = (y : ℚ) := by
      rw [Nat.cast_sub h1]
      simp
    simp only [chartSeries, Int.toNat_ofNat, List.getElem?_map, List.getElem?_range hlt,
      Option.map_some', JSNum.div, hy, if_neg hpos]
  · simp only [chartSeries, Int.toNat_ofNat, List.chain'_map]
    cases Y with
    | zero => simp
    | succ n =>
      rw [List.chain'_range_succ]
      simp only [Nat.succ_eq_add_one, JSNum.lt_div_succ]
      constructor
      · intro h
        by_cases hn : n = 0
        · left
          omega
        · right
          exact h 0 (Nat.pos_of_ne_zero hn)
      · rintro (h | h) m hm
        · omega
        · exact h

/-- The future value of positive contributions at a positive growth factor is positive. -/
theorem futureValue_pos (P a L s f : ℚ) (Y : ℕ) (hP : 0 < P) (hs : 0 < 1 + s / 100)
    (ha : 0 < 1 + a / 100 / 12) (hY : 0 < Y) :
    0 < (calculateSIP ⟨P, a, (Y : ℤ), L, s, f⟩).futureValue := by
  simp only [calculateSIP, finalLoopState_ofNat]
  apply Finset.sum_pos
  · intro j _
    unfold contribution
    positivity
  · simp
    omega

/-- C7 at the defaults: ten entries labelled 1..10, the second is half the
final future value, and the curve decreases. -/
theorem chartSeries_spec_witness :
    chartLabels ⟨5000, 12, ((10 : ℕ) : ℤ), 0, 0, 0⟩ = [1, 2, 3, 4, 5, 6, 7, 8, 9, 10] ∧
    (chartSeries ⟨5000, 12, ((10 : ℕ) : ℤ), 0, 0, 0⟩).length = 10 ∧
    (chartSeries ⟨5000, 12, ((10 : ℕ) : ℤ), 0, 0, 0⟩)[1]? =
      some (JSNum.fin ((calculateSIP ⟨5000, 12, ((10 : ℕ) : ℤ), 0, 0, 0⟩).futureValue / 2)) ∧
    List.Chain' (fun x y => JSNum.lt y x = true)
      (chartSeries ⟨5000, 12, ((10 : ℕ) : ℤ), 0, 0, 0⟩) := by
  have h := chartSeries_spec 5000 12 0 0 0 10
  have hpos := futureValue_pos 5000 12 0 0 0 10 (by norm_num) (by norm_num) (by norm_num)
    (by norm_num)
  refine ⟨?_, h.2.1, ?_, h.2.2.2.mpr (Or.inr hpos)⟩
  · rw [h.1]
    rfl
  · have h2 := h.2.2.1 2 (by norm_num) (by norm_num)
    simpa using h2

/-- C7 fails as stated: with `sipAmount = 0` and `years = 2` both entries of
the series are 0, so the second is not smaller than the first. -/
theorem chartSeries_not_decreasing :
    chartSeries ⟨0, 12, 2, 0, 0, 0⟩ = [JSNum.fin 0, JSNum.fin 0] ∧
    ¬ List.Chain' (fun x y => JSNum.lt y x = true) (chartSeries ⟨0, 12, 2, 0, 0, 0⟩) := by
  have hfv : (calculateSIP ⟨0, 12, 2, 0, 0, 0⟩).futureValue = 0 := by
    simp [calculateSIP, finalLoopState_eq, contribution]
  have hs : chartSeries ⟨0, 12, 2, 0, 0, 0⟩ = [JSNum.fin 0, JSNum.fin 0] := by
    have h2 : Int.toNat 2 = 2 := rfl
    simp only [chartSeries, hfv, h2]
    norm_num [List.range_succ, JSNum.div]
  rw [hs]
  exact ⟨rfl, by simp [JSNum.lt]⟩

/-! ## Text in the state fields -/

theorem investedLoop_unfold (months : ℚ) (g : JSVal) (i : ℕ) (sip total : JSVal) :
    investedLoop months g i sip total =
      if (i : ℚ) < months then
        match investedBody g i sip total with
        | none => none
        | some (sip1, total1) => investedLoop months g (i + 1) sip1 total1
      else some total := by
  rw [investedLoop]

/-- With numbers in the fields and no step-up, each pass adds `P` to the total. -/
theorem investedLoop_numbers (P : ℚ) (n k : ℕ) :
    ∀ (i : ℕ) (t : ℚ), i + k = n →
      investedLoop (n : ℚ) (JSVal.num 1) i (JSVal.num P) (JSVal.num t) =
        some (JSVal.num (t + k * P)) := by
  induction k with
  | zero =>
    intro i t hi
    have : ¬ ((i : ℚ) < (n : ℚ)) := by
      rw [Nat.cast_lt]
      omega
    rw [investedLoop_unfold, if_neg this]
    simp
  | succ k ih =>
    intro i t hi
    have hlt : (i : ℚ) < (n : ℚ) := by
      rw [Nat.cast_lt]
      omega
    rw [investedLoop_unfold, if_pos hlt]
    have hbody : investedBody (JSVal.num 1) i (JSVal.num P) (JSVal.num t) =
        some (JSVal.num P, JSVal.num (t + P)) := by
      unfold investedBody
      split_ifs <;> simp [JSVal.mul, JSVal.toNum, JSVal.add]
    rw [hbody]
    simp only
    rw [ih (i + 1) (t + P) (by omega)]
    push_cast
    congr 2
    ring

/-- Next to a string, `+` appends the text of its right operand. -/
theorem JSVal.add_str (t : String) (b : JSVal) (sb : String) (hb : b.toStr = some sb) :
    JSVal.add (JSVal.str t) b = some (JSVal.str (t ++ sb)) := by
  have ht : (JSVal.str t).toStr = some t := rfl
  cases b with
  | num q => simp only [JSVal.add, ht, hb]
  | str u => simp only [JSVal.add, ht, hb]

/-- A number before a string is printed and the string appended to it. -/
theorem JSVal.add_num_str (q : ℚ) (u sq : String) (hq : (JSVal.num q).toStr = some sq) :
    JSVal.add (JSVal.num q) (JSVal.str u) = some (JSVal.str (sq ++ u)) := by
  have hu : (JSVal.str u).toStr = some u := rfl
  simp only [JSVal.add, hq, hu]

/-- With the text "5000" in `sip`, or the number 5000 it turns into at the first
step-up, each pass appends "5000" to a total that is already a string. -/
theorem investedLoop_text (n k : ℕ) :
    ∀ (i : ℕ) (sip : JSVal) (t : String), i + k = n →
      sip = JSVal.str "5000" ∨ sip = JSVal.num 5000 →
      investedLoop (n : ℚ) (JSVal.num 1) i sip (JSVal.str t) =
        some (JSVal.str ((fun u : String => u ++ "5000")^[k] t)) := by
  induction k with
  | zero =>
    intro i sip t hi _
    have : ¬ ((i : ℚ) < (n : ℚ)) := by
      rw [Nat.cast_lt]
      omega
    rw [investedLoop_unfold, if_neg this]
    rfl
  | succ k ih =>
    intro i sip t hi hs
    have hlt : (i : ℚ) < (n : ℚ) := by
      rw [Nat.cast_lt]
      omega
    have h5 : JSVal.toStr (JSVal.num 5000) = some "5000" := by
      have hd : (5000 : ℚ).den = 1 := by norm_num
      have hn : (5000 : ℚ).num = 5000 := by norm_num
      simp only [JSVal.toStr, hd, hn]
      decide
    have hm : JSVal.mul (JSVal.str "5000") (JSVal.num 1) = some (JSVal.num 5000) := by
      have hv : digitsValue "5000".data 0 = some 5000 := by decide
      simp [JSVal.mul, JSVal.toNum, hv]
    have hs5 : JSVal.toStr (JSVal.str "5000") = some "5000" := rfl
    have hm1 : JSVal.mul (JSVal.num 5000) (JSVal.num 1) = some (JSVal.num 5000) := by
      simp [JSVal.mul, JSVal.toNum]
    have hbody : ∃ sip1, (sip1 = JSVal.str "5000" ∨ sip1 = JSVal.num 5000) ∧
        investedBody (JSVal.num 1) i sip (JSVal.str t) =
          some (sip1, JSVal.str (t ++ "5000")) := by
      unfold investedBody
      rcases hs with hs | hs <;> subst hs <;> split_ifs
      · exact ⟨JSVal.num 5000, Or.inr rfl, by simp only [hm, JSVal.add_str t _ _ h5]⟩
      · exact ⟨JSVal.str "5000", Or.inl rfl, by simp only [JSVal.add_str t _ _ hs5]⟩
      · exact ⟨JSVal.num 5000, Or.inr rfl, by simp only [hm1, JSVal.add_str t _ _ h5]⟩
      · exact ⟨JSVal.num 5000, Or.inr rfl, by simp only [JSVal.add_str t _ _ h5]⟩
    obtain ⟨sip1, hs1, hb⟩ := hbody
    rw [investedLoop_unfold, if_pos hlt, hb]
    simp only
    rw [ih (i + 1) sip1 (t ++ "5000") (by omega) hs1, Function.iterate_succ_apply]

/-- The loop parameters read off a state whose `years` is 10 and `stepUp` is 0. -/
theorem totalInvestedOfState_defaults (st : FormState)
    (hy : st.years = JSVal.num 10) (hs : st.stepUp = JSVal.num 0) :
    totalInvestedOfState st =
      investedLoop ((120 : ℕ) : ℚ) (JSVal.num 1) 0 st.sipAmount (JSVal.num 0) := by
  have h1 : JSVal.mul (JSVal.num 10) (JSVal.num 12) = some (JSVal.num 120) := by
    simp only [JSVal.mul, JSVal.toNum]
    norm_num
  have h2 : JSVal.div (JSVal.num 0) (JSVal.num 100) = some (JSVal.num 0) := by
    simp only [JSVal.div, JSVal.toNum]
    norm_num
  have h3 : JSVal.add (JSVal.num 1) (JSVal.num 0) = some (JSVal.num 1) := by
    simp only [JSVal.add]
    norm_num
  simp only [totalInvestedOfState, hy, hs, h1, h2, h3, JSVal.toNum]
  norm_num

/-- C9 fails on the code: each of the six handlers stores the text of the
input, not a number. On numbers `calculateSIP` gives 600000 for the defaults.
After "5000" is typed into the SIP Amount field the field holds the string
"5000", and `totalInvested` ends as the string "0" followed by 120 copies of
"5000" where the numeric defaults give 600000; after "0" is typed into the Lump
Sum field, `totalInvested + lumpSum` is the string "6000000" where the numeric
defaults give 600000. -/
theorem typed_text_is_concatenated :
    (∀ (st : FormState) (text : String),
      (setSipAmount st text).sipAmount.isNumber = false ∧
      (setAnnualReturn st text).annualReturn.isNumber = false ∧
      (setYears st text).years.isNumber = false ∧
      (setLumpSum st text).lumpSum.isNumber = false ∧
      (setStepUp st text).stepUp.isNumber = false ∧
      (setInflationRate st text).inflationRate.isNumber = false) ∧
    (calculateSIP ⟨5000, 12, ((10 : ℕ) : ℤ), 0, 0, 0⟩).totalInvested = 600000 ∧
    (setSipAmount initialState "5000").sipAmount = JSVal.str "5000" ∧
    (setSipAmount initialState "5000").sipAmount.isNumber = false ∧
    totalInvestedOfState initialState = some (JSVal.num 600000) ∧
    totalInvestedOfState (setSipAmount initialState "5000") =
      some (JSVal.str ((fun u : String => u ++ "5000")^[120] "0")) ∧
    (setLumpSum initialState "0").lumpSum = JSVal.str "0" ∧
    investedPlusLumpSum initialState = some (JSVal.num 600000) ∧
    investedPlusLumpSum (setLumpSum initialState "0") = some (JSVal.str "6000000") := by
  have hnum : totalInvestedOfState initialState = some (JSVal.num 600000) := by
    rw [totalInvestedOfState_defaults initialState rfl rfl]
    have h := investedLoop_numbers 5000 120 120 0 0 (by norm_num)
    simp only [initialState]
    rw [h]
    norm_num
  have hlump : totalInvestedOfState (setLumpSum initialState "0") =
      some (JSVal.num 600000) := by
    rw [totalInvestedOfState_defaults _ rfl rfl]
    have h := investedLoop_numbers 5000 120 120 0 0 (by norm_num)
    simp only [setLumpSum, initialState]
    rw [h]
    norm_num
  have h6 : JSVal.toStr (JSVal.num 600000) = some "600000" := by
    have hd : (600000 : ℚ).den = 1 := by norm_num
    have hn : (600000 : ℚ).num = 600000 := by norm_num
    simp only [JSVal.toStr, hd, hn]
    decide
  have h0 : JSVal.toStr (JSVal.num 0) = some "0" := by
    have hd : (0 : ℚ).den = 1 := by norm_num
    have hn : (0 : ℚ).num = 0 := by norm_num
    simp only [JSVal.toStr, hd, hn]
    decide
  have hcore : (calculateSIP ⟨5000, 12, ((10 : ℕ) : ℤ), 0, 0, 0⟩).totalInvested = 600000 := by
    simp only [calculateSIP, finalLoopState_ofNat, sum_contribution_years]
    norm_num
  refine ⟨fun st text => ⟨rfl, rfl, rfl, rfl, rfl, rfl⟩, hcore, rfl, rfl, hnum, ?_, rfl, ?_, ?_⟩
  · rw [totalInvestedOfState_defaults _ rfl rfl]
    have hlt : (((0 : ℕ) : ℚ)) < ((120 : ℕ) : ℚ) := by norm_num
    have hbody : investedBody (JSVal.num 1) 0 (JSVal.str "5000") (JSVal.num 0) =
        some (JSVal.str "5000", JSVal.str ("0" ++ "5000")) := by
      simp [investedBody, JSVal.add_num_str 0 "5000" "0" h0]
    have hsip : (setSipAmount initialState "5000").sipAmount = JSVal.str "5000" := rfl
    rw [hsip, investedLoop_unfold, if_pos hlt, hbody]
    simp only
    rw [investedLoop_text 120 119 1 (JSVal.str "5000") ("0" ++ "5000") (by norm_num)
      (Or.inl rfl)]
    exact congrArg (fun x => some (JSVal.str x))
      (Function.iterate_succ_apply (fun u : String => u ++ "5000") 119 "0").symm
  · unfold investedPlusLumpSum
    rw [hnum]
    simp [initialState, JSVal.add]
  · unfold investedPlusLumpSum
    rw [hlump]
    have hl : (setLumpSum initialState "0").lumpSum = JSVal.str "0" := rfl
    simp only [hl]
    rw [JSVal.add_num_str 600000 "0" "600000" h6]
    decide

/-! ## The program in binary64 -/

/-- A loop that has ended within `fuel` tests ends in the same state with more. -/
theorem forLoop64_fuel_mono (months r g : F64) (k : ℕ) :
    ∀ (fuel : ℕ) (s t : LoopState64), forLoop64 months r g fuel s = some t →
      forLoop64 months r g (fuel + k) s = some t := by
  intro fuel
  induction fuel with
  | zero =>
    intro s t h
    simp [forLoop64] at h
  | succ fuel ih =>
    intro s t h
    have hk : fuel + 1 + k = (fuel + k) + 1 := by omega
    rw [hk]
    simp only [forLoop64] at h ⊢
    split_ifs at h ⊢ with hlt
    · exact ih _ _ h
    · exact h

/-- The outputs do not depend on the fuel, once it is enough for the loop to end. -/
theorem calculateSIP64_fuel_mono (fuel k : ℕ) (inp : Inputs64) (out : Outputs64)
    (h : calculateSIP64 fuel inp = some out) : calculateSIP64 (fuel + k) inp = some out := by
  simp only [calculateSIP64] at h ⊢
  cases hs : forLoop64 (F64.mul inp.years (F64.ofInt 12))
      (F64.div (F64.div inp.annualReturn (F64.ofInt 100)) (F64.ofInt 12))
      (F64.add (F64.ofInt 1) (F64.div inp.stepUp (F64.ofInt 100))) fuel
      { i := F64.ofInt 0, futureValue := F64.ofInt 0, sip := inp.sipAmount,
        totalInvested := F64.ofInt 0 } with
  | none =>
    rw [hs] at h
    simp at h
  | some s =>
    rw [hs] at h
    rw [forLoop64_fuel_mono _ _ _ k fuel _ s hs]
    exact h

set_option maxRecDepth 1000000 in
/-- The outputs at the defaults, in binary64. -/
theorem calculateSIP64_defaults :
    calculateSIP64 121 (Inputs64.ofInts 5000 12 10 0 0 0) =
      some
        { futureValue := F64.fin false 4989443672572155 (-32)
          lumpSumFuture := F64.fin false 0 (-1074)
          adjustedFutureValue := F64.fin false 4989443672572155 (-32)
          totalInvested := F64.fin false 5153960755200000 (-33)
          totalInterest := F64.fin false 4824926589944310 (-33) } := by
  decide

set_option maxRecDepth 1000000 in
/-- The outputs for 1000 a month stepped up by 3% over 3 years, in binary64. -/
theorem calculateSIP64_stepUp3 :
    calculateSIP64 37 (Inputs64.ofInts 1000 12 3 0 3 0) =
      some
        { futureValue := F64.fin false 6146373265996436 (-37)
          lumpSumFuture := F64.fin false 0 (-1074)
          adjustedFutureValue := F64.fin false 6146373265996436 (-37)
          totalInvested := F64.fin false 5097720735439260 (-37)
          totalInterest := F64.fin false 8389220244457408 (-40) } := by
  decide

set_option maxRecDepth 1000000 in
/-- The outputs for 333 a month stepped up by 1%, a lump sum of 12345 and a
return of 100% over 2 years, in binary64. -/
theorem calculateSIP64_lumpSum :
    calculateSIP64 25 (Inputs64.ofInts 333 100 2 12345 1 0) =
      some
        { futureValue := F64.fin false 6954146802074262 (-38)
          lumpSumFuture := F64.fin false 6786735522447360 (-37)
          adjustedFutureValue := F64.fin false 5131904461742246 (-36)
          totalInvested := F64.fin false 8831233413831720 (-40)
          totalInterest := F64.fin false 7463220866143687 (-37) } := by
  decide

set_option maxRecDepth 1000000 in
/-- The outputs for 1000 a month over 2 years at 400% inflation, in binary64. -/
theorem calculateSIP64_inflation400 :
    calculateSIP64 25 (Inputs64.ofInts 1000 12 2 0 0 400) =
      some
        { futureValue := F64.fin false 7488553657491543 (-38)
          lumpSumFuture := F64.fin false 0 (-1074)
          adjustedFutureValue := F64.fin false 4792674340794588 (-42)
          totalInvested := F64.fin false 6597069766656000 (-38)
          totalInterest := F64.fin false 7131871126684344 (-41) } := by
  decide

/-- C2 fails as stated: in binary64, for 1000 a month stepped up by 3% over 3
years, `totalInvested` is 5097720735439260 × 2^−37 (37090.80000000002), which is
not the closed form 12 × 1000 × (1 + 1.03 + 1.03²) = 185454/5, and not the
binary64 value nearest to it either, which is 5097720735439258 × 2^−37. -/
theorem totalInvested_not_closed_form :
    (calculateSIP64 37 (Inputs64.ofInts 1000 12 3 0 3 0)).map (fun o => o.totalInvested) =
      some (F64.fin false 5097720735439260 (-37)) ∧
    F64.toRat (F64.fin false 5097720735439260 (-37)) ≠
      some (12 * 1000 * ∑ y in Finset.range 3, (1 + 3 / 100 : ℚ) ^ y) ∧
    12 * 1000 * ∑ y in Finset.range 3, (1 + 3 / 100 : ℚ) ^ y = 185454 / 5 ∧
    F64.roundPos false 185454 5 = F64.fin false 5097720735439258 (-37) := by
  refine ⟨?_, ?_, ?_, ?_⟩
  · rw [calculateSIP64_stepUp3]
    rfl
  · simp only [F64.toRat, ne_eq, Option.some.injEq]
    norm_num [Finset.sum_range_succ]
  · norm_num [Finset.sum_range_succ]
  · decide

/-- C10 fails as stated: in binary64, at the defaults, `futureValue` is
4989443672572155 × 2^−32, which exceeds the sum of the compounded contributions
by more than 10^−9. -/
theorem futureValue_not_contribution_sum :
    (calculateSIP64 121 (Inputs64.ofInts 5000 12 10 0 0 0)).map (fun o => o.futureValue) =
      some (F64.fin false 4989443672572155 (-32)) ∧
    F64.toRat (F64.fin false 4989443672572155 (-32)) =
      some (4989443672572155 / 4294967296) ∧
    (∑ i in Finset.range 120,
        (5000 * (1 + 0 / 100 : ℚ) ^ (i / 12)) * (1 + 12 / 100 / 12) ^ (120 - i)) + 1 / 10 ^ 9 <
      4989443672572155 / 4294967296 := by
  refine ⟨?_, ?_, ?_⟩
  · rw [calculateSIP64_defaults]
    rfl
  · simp only [F64.toRat, Option.some.injEq]
    norm_num
  · have hsum : ∑ i in Finset.range 120,
        (5000 * (1 + 0 / 100 : ℚ) ^ (i / 12)) * (1 + 12 / 100 / 12) ^ (120 - i) =
        ∑ i in Finset.range 120, 5000 * (101 / 100 : ℚ) ^ (120 - i) := by
      refine Finset.sum_congr rfl fun i _ => ?_
      norm_num
    rw [hsum, geometric_future_value 5000 (101 / 100) (by norm_num) 120]
    norm_num

/-- C5 fails as stated: in binary64, for 333 a month stepped up by 1%, a lump
sum of 12345 and a return of 100% over 2 years, `totalInterest` is
7463220866143687 × 2^−37, whereas subtracting `totalInvested` and `lumpSum` in
turn gives 7463220866143688 × 2^−37, and neither is the exact value of
`futureValue + lumpSumFuture − totalInvested − lumpSum`. -/
theorem totalInterest_not_exact :
    calculateSIP64 25 (Inputs64.ofInts 333 100 2 12345 1 0) =
      some
        { futureValue := F64.fin false 6954146802074262 (-38)
          lumpSumFuture := F64.fin false 6786735522447360 (-37)
          adjustedFutureValue := F64.fin false 5131904461742246 (-36)
          totalInvested := F64.fin false 8831233413831720 (-40)
          totalInterest := F64.fin false 7463220866143687 (-37) } ∧
    F64.sub
        (F64.sub
          (F64.add (F64.fin false 6954146802074262 (-38)) (F64.fin false 6786735522447360 (-37)))
          (F64.fin false 8831233413831720 (-40)))
        (F64.ofInt 12345) =
      F64.fin false 7463220866143688 (-37) ∧
    (∃ v l t w : ℚ,
      F64.toRat (F64.fin false 6954146802074262 (-38)) = some v ∧
      F64.toRat (F64.fin false 6786735522447360 (-37)) = some l ∧
      F64.toRat (F64.fin false 8831233413831720 (-40)) = some t ∧
      F64.toRat (F64.fin false 7463220866143687 (-37)) = some w ∧
      w ≠ v + l - t - 12345) := by
  refine ⟨calculateSIP64_lumpSum, by decide, ⟨_, _, _, _, rfl, rfl, rfl, rfl, ?_⟩⟩
  norm_num

/-- C6 fails as stated: in binary64, for 1000 a month over 2 years at 400%
inflation, the divisor is 25 and `adjustedFutureValue × 25` is
7488553657491544 × 2^−38, not `futureValue + lumpSumFuture`, which is
7488553657491543 × 2^−38; the exact product differs from it as well. -/
theorem adjustedFutureValue_not_deflated :
    calculateSIP64 25 (Inputs64.ofInts 1000 12 2 0 0 400) =
      some
        { futureValue := F64.fin false 7488553657491543 (-38)
          lumpSumFuture := F64.fin false 0 (-1074)
          adjustedFutureValue := F64.fin false 4792674340794588 (-42)
          totalInvested := F64.fin false 6597069766656000 (-38)
          totalInterest := F64.fin false 7131871126684344 (-41) } ∧
    F64.pow (F64.add (F64.ofInt 1) (F64.div (F64.ofInt 400) (F64.ofInt 100))) (F64.ofInt 2) =
      F64.ofInt 25 ∧
    F64.mul (F64.fin false 4792674340794588 (-42)) (F64.ofInt 25) =
      F64.fin false 7488553657491544 (-38) ∧
    F64.add (F64.fin false 7488553657491543 (-38)) (F64.fin false 0 (-1074)) =
      F64.fin false 7488553657491543 (-38) ∧
    (∃ a v : ℚ,
      F64.toRat (F64.fin false 4792674340794588 (-42)) = some a ∧
      F64.toRat (F64.fin false 7488553657491543 (-38)) = some v ∧
      a * (1 + 400 / 100) ^ 2 ≠ v) := by
  refine ⟨calculateSIP64_inflation400, by decide, by decide, by decide, ⟨_, _, rfl, rfl, ?_⟩⟩
  norm_num

/-! ## Overflow and the loop counter in binary64 -/

set_option maxRecDepth 1000000 in
/-- With no contributions and an annual return of 10^306 percent over 2 years,
the power overflows and `lumpSumFuture` is `0 × ∞`, which is NaN. -/
theorem calculateSIP64_zero_times_infinity :
    calculateSIP64 25 (Inputs64.ofInts 0 (10 ^ 306) 2 0 0 0) =
      some
        { futureValue := F64.fin false 0 (-1074)
          lumpSumFuture := F64.nan
          adjustedFutureValue := F64.nan
          totalInvested := F64.fin false 0 (-1074)
          totalInterest := F64.nan } := by
  decide

set_option maxRecDepth 1000000 in
/-- With 5000 a month, a lump sum of 1 and an annual return of 10^306 percent
over 2 years, four of the five outputs overflow to `+∞`. -/
theorem calculateSIP64_overflow :
    calculateSIP64 25 (Inputs64.ofInts 5000 (10 ^ 306) 2 1 0 0) =
      some
        { futureValue := F64.inf false
          lumpSumFuture := F64.inf false
          adjustedFutureValue := F64.inf false
          totalInvested := F64.fin false 8246337208320000 (-36)
          totalInterest := F64.inf false } := by
  decide

set_option maxRecDepth 1000000 in
/-- At the same input the chart series is `[+∞, +∞]`: the future value is
positive and the second entry is not smaller than the first. -/
theorem chartSeries64_overflow :
    chartSeries64 25 (Inputs64.ofInts 5000 (10 ^ 306) 2 0 0 0) =
      some [F64.inf false, F64.inf false] ∧
    F64.lt (F64.inf false) (F64.inf false) = false := by
  decide

set_option maxRecDepth 1000000 in
/-- The increment `i++` leaves the counter unchanged at 2^53, so the loop does
not end once it gets there with `months` above 2^53, which `years = 10^15`
gives. -/
theorem counter_stalls :
    F64.add (F64.ofInt (2 ^ 53)) (F64.ofInt 1) = F64.ofInt (2 ^ 53) ∧
    F64.lt (F64.ofInt (2 ^ 53)) (F64.mul (F64.ofInt (10 ^ 15)) (F64.ofInt 12)) = true := by
  decide

end SIPCalculator
